import Mathlib

/-!
Verification of the MizbanCloud CLI core (Go) against its specification.

The development shallowly embeds the core of the repository:
  * the JSON value model used by `encoding/json` after parsing,
  * the tolerant adapters `NumericBool` and `FlexibleString`
    (src/pkg/types/types.go),
  * the HTTP client core `Client.request` (src/unnamed/part_000): request
    building (headers, URL) and response classification (status triage,
    envelope decoding),
  * the rate-limit disable command (src/unnamed/part_002) and the login
    command (src/pkg/cli/auth/login.go) at the level of the HTTP calls
    they issue and the configuration they persist.

JSON numbers are modelled as rationals: `encoding/json` decodes every
number into a single numeric type, so the JSON texts `1` and `1.0`
denote the same model value `Json.num 1`.  A response body is either a
parsed JSON value or bytes that are not valid JSON (`RawBody.notJson`);
byte-level parsing itself is the Go standard library's and is not
re-modelled.
-/

/-- A parsed JSON value, as produced by `encoding/json` decoding. -/
inductive Json where
  | null : Json
  | bool (b : Bool) : Json
  | num (q : Rat) : Json
  | str (s : String) : Json
  | arr (elems : List Json) : Json
  | obj (fields : List (String × Json)) : Json

/-- A raw HTTP response body: either valid JSON (already parsed) or not. -/
inductive RawBody where
  | notJson : RawBody
  | json (j : Json) : RawBody

/-- Model of Go's `strconv.ParseBool`: accepts exactly
`1, t, T, TRUE, true, True` and `0, f, F, FALSE, false, False`;
anything else is an error. -/
def strconvParseBool : String → Except String Bool
  | "1" => .ok true
  | "t" => .ok true
  | "T" => .ok true
  | "TRUE" => .ok true
  | "true" => .ok true
  | "True" => .ok true
  | "0" => .ok false
  | "f" => .ok false
  | "F" => .ok false
  | "FALSE" => .ok false
  | "false" => .ok false
  | "False" => .ok false
  | _ => .error "invalid"

/-- Core of `NumericBool.UnmarshalJSON` (src/pkg/types/types.go:11-31):
the type switch on the decoded `interface{}` value.  `bool` is taken
as-is; numbers are nonzero-tests; strings go through `strconv.ParseBool`
with the error discarded (so unparseable strings yield `false`, the zero
value); everything else (null, arrays, objects) falls to the `default`
branch, `false`. -/
def numericBoolOf : Json → Bool
  | .bool b => b
  | .num q => decide (q ≠ 0)
  | .str s => ((strconvParseBool s).toOption.getD false)
  | _ => false

/-- `NumericBool.UnmarshalJSON` as a whole: the initial
`json.Unmarshal(data, &raw)` fails only when the bytes are not valid
JSON; on any parsed value the type switch assigns and returns `nil`. -/
def numericBoolUnmarshal : RawBody → Except String Bool
  | .notJson => .error "invalid JSON"
  | .json j => .ok (numericBoolOf j)

/-- Decode a JSON array as a Go `[]string`: every element must be a
string, except that a JSON `null` element leaves the zero value `""` in
place (Go's null-is-a-no-op rule). Any other element type is an
unmarshal error, modelled as `none`. -/
def jsonStringElems : List Json → Option (List String)
  | [] => some []
  | .str s :: rest => (jsonStringElems rest).map (s :: ·)
  | .null :: rest => (jsonStringElems rest).map ("" :: ·)
  | _ => none

/-- `FlexibleString.UnmarshalJSON` (src/pkg/types/types.go:45-67).
First tries to unmarshal into a `string` (succeeds on a JSON string,
and on JSON `null`, which leaves the zero value `""`); then into
`[]string` (taking the first element, or `""` for an empty array);
otherwise defaults to `""`.  The function always returns `nil` error. -/
def flexibleStringUnmarshal : RawBody → Except String String
  | .notJson => .ok ""
  | .json (.str s) => .ok s
  | .json .null => .ok ""
  | .json (.arr elems) =>
    match jsonStringElems elems with
    | some (s :: _) => .ok s
    | some [] => .ok ""
    | none => .ok ""
  | .json _ => .ok ""

/-- The uniform response envelope `Response` (src/unnamed/part_000:19-23):
`{Success bool; Message string; Data json.RawMessage}`.  `Data` holds the
raw JSON of the `data` field uninterpreted; a `nil` raw message is
modelled as `Json.null` (the two marshal identically). -/
structure Response where
  success : Bool
  message : String
  data : Json

/-- The zero value of the Go `Response` struct, as declared by
`var response Response` before unmarshaling. -/
def Response.zero : Response := ⟨false, "", Json.null⟩

/-- Assign one JSON object entry to the `Response` struct, following
`encoding/json`: a `bool` field accepts only a JSON bool (null is a
no-op), a `string` field only a JSON string (null is a no-op), a
`json.RawMessage` field captures any value verbatim, and unknown keys
are ignored.  A type mismatch is an unmarshal error.  Keys are matched
against the struct tags exactly; Go's additional case-insensitive
fallback match is not modelled (no claim exercises mixed-case keys). -/
def setResponseField (r : Response) (k : String) (v : Json) :
    Except String Response :=
  if k == "success" then
    match v with
    | .bool b => .ok { r with success := b }
    | .null => .ok r
    | _ => .error "cannot unmarshal into bool"
  else if k == "message" then
    match v with
    | .str s => .ok { r with message := s }
    | .null => .ok r
    | _ => .error "cannot unmarshal into string"
  else if k == "data" then .ok { r with data := v }
  else .ok r

/-- Process the entries of a JSON object in order (later duplicates
overwrite earlier ones, as `encoding/json` does). -/
def applyResponseFields (r : Response) :
    List (String × Json) → Except String Response
  | [] => .ok r
  | (k, v) :: rest =>
    match setResponseField r k v with
    | .error e => .error e
    | .ok r2 => applyResponseFields r2 rest

/-- `json.Unmarshal(respBody, &response)` with `response : Response`
(src/unnamed/part_000:83-86): not-JSON bytes and non-object, non-null
top-level values are unmarshal errors; `null` leaves the zero struct;
an object is folded field by field. -/
def unmarshalResponse : RawBody → Except String Response
  | .notJson => .error "invalid JSON"
  | .json .null => .ok Response.zero
  | .json (.obj fields) => applyResponseFields Response.zero fields
  | .json _ => .error "cannot unmarshal into Response"

/-- The error taxonomy of `Client.request` after the response has been
received (src/unnamed/part_000:75-92). -/
inductive ReqError where
  | unauthorized : ReqError
  | rateLimited : ReqError
  | malformedResponse : ReqError
  | apiError (message : String) : ReqError

/-- The response-classification tail of `Client.request`
(src/unnamed/part_000:75-92): status 401 and 429 are special-cased
before any body parsing; otherwise the body is unmarshaled as the
envelope, a parse failure is a malformed-response error, `success=false`
is an API error carrying the envelope's message, and otherwise the
envelope is returned. -/
def classifyResponse (status : Nat) (body : RawBody) :
    Except ReqError Response :=
  if status = 401 then .error .unauthorized
  else if status = 429 then .error .rateLimited
  else
    match unmarshalResponse body with
    | .error _ => .error .malformedResponse
    | .ok resp =>
      if resp.success then .ok resp else .error (.apiError resp.message)

/-- `json.Marshal` of the `Response` struct: an object with the three
tagged fields in declaration order, `Data` emitted verbatim. -/
def encodeResponse (r : Response) : Json :=
  .obj [("success", .bool r.success), ("message", .str r.message),
        ("data", r.data)]

/-- The persisted configuration (src/pkg/config/config.go:18-21):
`{Token string; BaseURL string}`. -/
structure Config where
  token : String
  baseURL : String

/-- An outgoing HTTP request as assembled by `Client.request`
(src/unnamed/part_000:40-62): method, URL (base URL concatenated with
the endpoint), headers in the order they are set, and the optional JSON
body. -/
structure HttpRequest where
  method : String
  url : String
  headers : List (String × String)
  body : Option Json

/-- The request-building head of `Client.request`
(src/unnamed/part_000:40-62): `Content-Type` and `Accept` are always
set; the `Authorization: Bearer <token>` header is added exactly when
the configured token is nonempty. -/
def buildRequest (cfg : Config) (method endpoint : String)
    (body : Option Json) : HttpRequest :=
  let headers := [("Content-Type", "application/json"),
                  ("Accept", "application/json")]
  let headers :=
    if cfg.token ≠ "" then
      headers ++ [("Authorization", "Bearer " ++ cfg.token)]
    else headers
  ⟨method, cfg.baseURL ++ endpoint, headers, body⟩

/-- `Client.Delete` (src/unnamed/part_000:107-109): `request` with the
DELETE method and a nil body. -/
def clientDelete (cfg : Config) (endpoint : String) : HttpRequest :=
  buildRequest cfg "DELETE" endpoint none

/-- The value of the first header with the given name, if any. -/
def headerValue (req : HttpRequest) (name : String) : Option String :=
  (req.headers.find? (fun h => h.1 == name)).map (fun h => h.2)

/-- The rate-limit settings struct (src/unnamed/part_002:172-182):
`domain_id`/`limit`/`block` are ints, `enabled` is a `NumericBool`,
the three lists are `[]string`, and the timestamps are strings. -/
structure RateLimitSettings where
  domainId : Int
  enabled : Bool
  limit : Int
  block : Int
  allowMethods : List String
  whitelist : List String
  allowCountries : List String
  createdAt : String
  updatedAt : String

/-- The zero value of the Go `RateLimitSettings` struct. -/
def RateLimitSettings.zero : RateLimitSettings :=
  ⟨0, false, 0, 0, [], [], [], "", ""⟩

/-- Decode a JSON value into a Go `int` field: a number with no
fractional part sets the field, `null` is a no-op (`.ok none`), and
anything else is an unmarshal error.  (Machine-width overflow is not
modelled.) -/
def decodeGoInt : Json → Except String (Option Int)
  | .null => .ok none
  | .num q =>
    if q.den = 1 then .ok (some q.num)
    else .error "cannot unmarshal into int"
  | _ => .error "cannot unmarshal into int"

/-- Decode a JSON value into a Go `[]string` field: an array of strings
sets the field, `null` is a no-op (`.ok none`), and anything else is an
unmarshal error. -/
def decodeGoStringSlice : Json → Except String (Option (List String))
  | .null => .ok none
  | .arr elems =>
    match jsonStringElems elems with
    | some ss => .ok (some ss)
    | none => .error "cannot unmarshal into string slice"
  | _ => .error "cannot unmarshal into string slice"

/-- Assign one JSON object entry to the `RateLimitSettings` struct,
following `encoding/json` and the struct tags: ints accept integral
numbers, strings accept strings, `[]string` accepts arrays of strings,
`enabled` goes through `NumericBool.UnmarshalJSON` (which never fails
on valid JSON), JSON `null` is a no-op for the plain fields, unknown
keys are ignored, and a type mismatch is an unmarshal error. -/
def setRateLimitField (s : RateLimitSettings) (k : String) (v : Json) :
    Except String RateLimitSettings :=
  if k == "domain_id" then
    match decodeGoInt v with
    | .ok (some n) => .ok { s with domainId := n }
    | .ok none => .ok s
    | .error e => .error e
  else if k == "enabled" then .ok { s with enabled := numericBoolOf v }
  else if k == "limit" then
    match decodeGoInt v with
    | .ok (some n) => .ok { s with limit := n }
    | .ok none => .ok s
    | .error e => .error e
  else if k == "block" then
    match decodeGoInt v with
    | .ok (some n) => .ok { s with block := n }
    | .ok none => .ok s
    | .error e => .error e
  else if k == "allow_methods" then
    match decodeGoStringSlice v with
    | .ok (some ss) => .ok { s with allowMethods := ss }
    | .ok none => .ok s
    | .error e => .error e
  else if k == "whitelist" then
    match decodeGoStringSlice v with
    | .ok (some ss) => .ok { s with whitelist := ss }
    | .ok none => .ok s
    | .error e => .error e
  else if k == "allow_countries" then
    match decodeGoStringSlice v with
    | .ok (some ss) => .ok { s with allowCountries := ss }
    | .ok none => .ok s
    | .error e => .error e
  else if k == "created_at" then
    match v with
    | .null => .ok s
    | .str t => .ok { s with createdAt := t }
    | _ => .error "cannot unmarshal into string"
  else if k == "updated_at" then
    match v with
    | .null => .ok s
    | .str t => .ok { s with updatedAt := t }
    | _ => .error "cannot unmarshal into string"
  else .ok s

/-- Process the entries of a JSON object in order into the
`RateLimitSettings` struct. -/
def applyRateLimitFields (s : RateLimitSettings) :
    List (String × Json) → Except String RateLimitSettings
  | [] => .ok s
  | (k, v) :: rest =>
    match setRateLimitField s k v with
    | .error e => .error e
    | .ok s2 => applyRateLimitFields s2 rest

/-- `json.Unmarshal(resp.Data, &settings)` with
`settings : RateLimitSettings` (src/unnamed/part_002:383-386). -/
def decodeRateLimitSettings : Json → Except String RateLimitSettings
  | .null => .ok RateLimitSettings.zero
  | .obj fields => applyRateLimitFields RateLimitSettings.zero fields
  | _ => .error "cannot unmarshal into RateLimitSettings"

/-- The POST body built by the rate-limit disable command
(src/unnamed/part_002:388-395): the keys of the
`map[string]interface{}` literal. -/
structure RateLimitBody where
  mode : Bool
  requestCount : Int
  blockTime : Int
  methods : List String
  ips : List String
  countries : List String

/-- One HTTP call made by the rate-limit disable command. -/
inductive RateLimitCall where
  | get (path : String) : RateLimitCall
  | post (path : String) (body : RateLimitBody) : RateLimitCall

/-- The rate-limit endpoint path,
`fmt.Sprintf("/v1/cdn/ng/domains/%d/ratelimit", domainID)`. -/
def ratelimitPath (domainID : Int) : String :=
  "/v1/cdn/ng/domains/" ++ toString domainID ++ "/ratelimit"

/-- The HTTP calls issued by `newRateLimitDisableCmd`
(src/unnamed/part_002:368-411) as a function of the outcome of the
initial GET: on a GET failure or a settings-parse failure the command
stops after the single GET; otherwise it POSTs `mode=false` with the
remaining fields copied from the settings just read. -/
def rateLimitDisableCalls (domainID : Int)
    (getOutcome : Except ReqError Response) : List RateLimitCall :=
  let path := ratelimitPath domainID
  match getOutcome with
  | .error _ => [.get path]
  | .ok resp =>
    match decodeRateLimitSettings resp.data with
    | .error _ => [.get path]
    | .ok s =>
      [.get path,
       .post path ⟨false, s.limit, s.block, s.allowMethods, s.whitelist,
         s.allowCountries⟩]

/-- The observable result of one run of the login command
(src/pkg/cli/auth/login.go:24-74): the configuration left on disk, the
profile request issued for verification (if any), and whether the
command succeeded. -/
structure LoginResult where
  persisted : Config
  profileRequest : Option HttpRequest
  ok : Bool

/-- One run of the login command as a function of the persisted
configuration, the token and `--url` inputs, and the outcome the
profile GET would have.  Mirrors login.go: the base URL is overridden
when `--url` is given, an empty token aborts before any request, the
token is set on the in-memory config, the client issues
`GET /v1/auth/profile` with that config, and `cfg.Save()` runs only
after that call returns without error. -/
def loginRun (persisted : Config) (tokenInput apiURL : String)
    (profileOutcome : Except ReqError Response) : LoginResult :=
  let base := if apiURL ≠ "" then apiURL else persisted.baseURL
  if tokenInput = "" then ⟨persisted, none, false⟩
  else
    let cfg : Config := ⟨tokenInput, base⟩
    let req := buildRequest cfg "GET" "/v1/auth/profile" none
    match profileOutcome with
    | .error _ => ⟨persisted, some req, false⟩
    | .ok _ => ⟨cfg, some req, true⟩

/-- C5: the tolerant boolean decodes `true`, `1`, `1.0`, `"true"` to
logical true and `false`, `0`, `"false"`, `null`, `"garbage"`, and any
JSON object to logical false, never raising an error.  (The JSON texts
`1` and `1.0` both parse to the model number `Json.num 1`; both spellings
are listed.) -/
theorem numericBool_decoding :
    numericBoolUnmarshal (.json (.bool true)) = .ok true ∧
    numericBoolUnmarshal (.json (.num 1)) = .ok true ∧
    numericBoolUnmarshal (.json (.num (1.0 : Rat))) = .ok true ∧
    numericBoolUnmarshal (.json (.str "true")) = .ok true ∧
    numericBoolUnmarshal (.json (.bool false)) = .ok false ∧
    numericBoolUnmarshal (.json (.num 0)) = .ok false ∧
    numericBoolUnmarshal (.json (.str "false")) = .ok false ∧
    numericBoolUnmarshal (.json .null) = .ok false ∧
    numericBoolUnmarshal (.json (.str "garbage")) = .ok false ∧
    (∀ fields : List (String × Json),
      numericBoolUnmarshal (.json (.obj fields)) = .ok false) := by
  refine ⟨rfl, by norm_num [numericBoolUnmarshal, numericBoolOf],
    by norm_num [numericBoolUnmarshal, numericBoolOf],
    rfl, rfl, by norm_num [numericBoolUnmarshal, numericBoolOf],
    rfl, rfl, rfl, fun fields => rfl⟩

/-- C6: the tolerant string decodes `"abc"` to `"abc"`, `["abc","def"]`
to the first element `"abc"`, `[]` to `""`, and `null` to `""`, never
raising an error. -/
theorem flexibleString_decoding :
    flexibleStringUnmarshal (.json (.str "abc")) = .ok "abc" ∧
    flexibleStringUnmarshal (.json (.arr [.str "abc", .str "def"])) = .ok "abc" ∧
    flexibleStringUnmarshal (.json (.arr [])) = .ok "" ∧
    flexibleStringUnmarshal (.json .null) = .ok "" := by
  exact ⟨rfl, rfl, rfl, rfl⟩

/-- C1: a 401 response always classifies as the unauthorized error and a
429 response always as the rate-limited error, for every body whatsoever
(including a valid envelope with `success = true`): the status-code
check precedes body parsing. -/
theorem status_check_precedes_parse :
    ∀ body : RawBody,
      classifyResponse 401 body = .error .unauthorized ∧
      classifyResponse 429 body = .error .rateLimited := by
  intro body
  exact ⟨rfl, rfl⟩

/-- C2: for a status other than 401 and 429, a body decoding to an
envelope with `success = false` classifies as an API error whose
message is the envelope's `message` field verbatim, whatever the `data`
field holds. -/
theorem api_error_carries_message (status : Nat) (body : RawBody)
    (env : Response) (h401 : status ≠ 401) (h429 : status ≠ 429)
    (hparse : unmarshalResponse body = .ok env)
    (hfail : env.success = false) :
    classifyResponse status body = .error (.apiError env.message) := by
  unfold classifyResponse
  rw [if_neg h401, if_neg h429, hparse]
  simp [hfail]

/-- Witness for C2 at status 200 with a concrete failing envelope. -/
theorem api_error_carries_message_witness :
    classifyResponse 200
      (.json (.obj [("success", .bool false), ("message", .str "boom"),
        ("data", .num 7)])) = .error (.apiError "boom") :=
  api_error_carries_message 200 _ ⟨false, "boom", .num 7⟩
    (by decide) (by decide) rfl rfl

/-- C3: for a status other than 401 and 429, a body decoding to an
envelope with `success = true` is returned as-is; and on a concrete
envelope-shaped object the decoded `data` field is exactly the JSON
value that appeared in the body. -/
theorem success_envelope_returned :
    (∀ (status : Nat) (body : RawBody) (env : Response),
      status ≠ 401 → status ≠ 429 →
      unmarshalResponse body = .ok env → env.success = true →
      classifyResponse status body = .ok env) ∧
    (∀ (m : String) (d : Json),
      unmarshalResponse (.json (.obj [("success", .bool true),
        ("message", .str m), ("data", d)])) = .ok ⟨true, m, d⟩) := by
  constructor
  · intro status body env h401 h429 hparse hok
    unfold classifyResponse
    rw [if_neg h401, if_neg h429, hparse]
    simp [hok]
  · intro m d
    rfl

/-- Witness for C3 at status 200 with a concrete success envelope. -/
theorem success_envelope_returned_witness :
    classifyResponse 200
      (.json (.obj [("success", .bool true), ("message", .str "ok"),
        ("data", .num 42)])) = .ok ⟨true, "ok", .num 42⟩ :=
  success_envelope_returned.1 200 _ ⟨true, "ok", .num 42⟩
    (by decide) (by decide) rfl rfl

/-- C4: away from 401 and 429 the outcome depends only on the body —
two such statuses with identical bodies classify identically — and a
body that does not unmarshal as the envelope yields the
malformed-response error at every such status. -/
theorem status_independent_outcome :
    (∀ (s₁ s₂ : Nat) (body : RawBody),
      s₁ ≠ 401 → s₁ ≠ 429 → s₂ ≠ 401 → s₂ ≠ 429 →
      classifyResponse s₁ body = classifyResponse s₂ body) ∧
    (∀ (s : Nat) (body : RawBody) (e : String),
      s ≠ 401 → s ≠ 429 → unmarshalResponse body = .error e →
      classifyResponse s body = .error .malformedResponse) := by
  constructor
  · intro s₁ s₂ body h₁ h₂ h₃ h₄
    unfold classifyResponse
    rw [if_neg h₁, if_neg h₂, if_neg h₃, if_neg h₄]
  · intro s body e h₁ h₂ hparse
    unfold classifyResponse
    rw [if_neg h₁, if_neg h₂, hparse]

/-- Witness for C4: statuses 200 and 500 agree on a non-JSON body, and
that body is a malformed response at status 500. -/
theorem status_independent_outcome_witness :
    classifyResponse 200 .notJson = classifyResponse 500 .notJson ∧
    classifyResponse 500 .notJson = .error .malformedResponse :=
  ⟨status_independent_outcome.1 200 500 .notJson
      (by decide) (by decide) (by decide) (by decide),
    status_independent_outcome.2 500 .notJson "invalid JSON"
      (by decide) (by decide) rfl⟩

/-- C8: encoding any envelope value and decoding the result yields the
same envelope (round-trip for the envelope shape). -/
theorem envelope_roundtrip (r : Response) :
    unmarshalResponse (.json (encodeResponse r)) = .ok r := by
  rfl

/-- C7: every request built by `request` carries
`Authorization: Bearer <token>` exactly when the configured token is
nonempty, and carries no Authorization header when the token is empty;
the DELETE helper builds exactly such a request with the DELETE method
and no body. -/
theorem auth_header_iff_token (cfg : Config) (method endpoint : String)
    (body : Option Json) :
    headerValue (buildRequest cfg method endpoint body) "Authorization" =
      (if cfg.token = "" then none else some ("Bearer " ++ cfg.token)) ∧
    clientDelete cfg endpoint = buildRequest cfg "DELETE" endpoint none := by
  constructor
  · by_cases h : cfg.token = "" <;>
      simp [buildRequest, headerValue, h, List.find?]
  · rfl

/-- C9: when the initial GET of the current rate-limit settings
succeeds and its payload decodes as the settings struct, the disable
command performs exactly two HTTP calls — that GET followed by a POST —
and the POST body sets `mode` to `false` while `request_count`,
`block_time`, `methods`, `ips` and `countries` are the values just
read. -/
theorem ratelimit_disable_two_calls (domainID : Int) (resp : Response)
    (s : RateLimitSettings)
    (hparse : decodeRateLimitSettings resp.data = .ok s) :
    rateLimitDisableCalls domainID (.ok resp) =
      [.get (ratelimitPath domainID),
       .post (ratelimitPath domainID)
         ⟨false, s.limit, s.block, s.allowMethods, s.whitelist,
           s.allowCountries⟩] := by
  simp [rateLimitDisableCalls, hparse]

/-- Witness for C9 on a concrete settings payload. -/
theorem ratelimit_disable_two_calls_witness :
    rateLimitDisableCalls 7
      (.ok ⟨true, "ok",
        .obj [("enabled", .num 1), ("limit", .num 100),
          ("block", .num 60), ("allow_methods", .arr [.str "GET"]),
          ("whitelist", .arr []),
          ("allow_countries", .arr [.str "IR"])]⟩) =
      [.get (ratelimitPath 7),
       .post (ratelimitPath 7) ⟨false, 100, 60, ["GET"], [], ["IR"]⟩] :=
  ratelimit_disable_two_calls 7 _ ⟨0, true, 100, 60, ["GET"], [], ["IR"], "", ""⟩
    (by rfl)

/-- C10: if the profile GET that verifies the new token fails, the
persisted configuration is left unchanged (still holding the previous
token); the verification request is `GET /v1/auth/profile` issued with
the new token; and only on verification success is the new
configuration saved. -/
theorem login_atomic_save :
    (∀ (persisted : Config) (tok url : String) (e : ReqError),
      (loginRun persisted tok url (.error e)).persisted = persisted) ∧
    (∀ (persisted : Config) (tok url : String)
      (outcome : Except ReqError Response), tok ≠ "" →
      (loginRun persisted tok url outcome).profileRequest =
        some (buildRequest
          ⟨tok, if url ≠ "" then url else persisted.baseURL⟩
          "GET" "/v1/auth/profile" none)) ∧
    (∀ (persisted : Config) (tok url : String) (r : Response),
      tok ≠ "" →
      (loginRun persisted tok url (.ok r)).persisted =
        ⟨tok, if url ≠ "" then url else persisted.baseURL⟩) := by
  refine ⟨fun persisted tok url e => ?_,
    fun persisted tok url outcome h => ?_,
    fun persisted tok url r h => ?_⟩
  · by_cases htok : tok = "" <;> simp [loginRun, htok]
  · cases outcome <;> simp [loginRun, h]
  · simp [loginRun, h]

/-- Witness for C10: a failed verification leaves the old persisted
config; a successful one persists the new token. -/
theorem login_atomic_save_witness :
    (loginRun ⟨"old", "https://api"⟩ "new" "" (.error .unauthorized)).persisted
      = ⟨"old", "https://api"⟩ ∧
    (loginRun ⟨"old", "https://api"⟩ "new" "" (.ok ⟨true, "ok", .null⟩)).persisted
      = ⟨"new", "https://api"⟩ := by
  refine ⟨login_atomic_save.1 ⟨"old", "https://api"⟩ "new" "" .unauthorized, ?_⟩
  have h := login_atomic_save.2.2 ⟨"old", "https://api"⟩ "new" ""
    ⟨true, "ok", .null⟩ (by decide)
  simpa using h
